/-
Verification of the message-routing backend in src/api.py.

The file shallow-embeds the routing pipeline of the /chat endpoint: Python
strings become Lean `String`, Python dicts with string keys become association
lists read through `dictGet` (mirroring `dict.get`), audio byte payloads become
`List Nat`, and the three external collaborators (speech recognition, text
generation, speech synthesis) are passed in as function parameters returning
`Option` (with `none` standing for any raised exception or falsy result).
Every call to a collaborator is recorded as a `CallEvent` so that theorems can
speak about which external services a request did or did not reach.
-/
import Mathlib

/-- Python `str.lower` on a single character (ASCII letters; characters outside
A-Z are returned unchanged, as Python does for them). -/
def py_char_lower (c : Char) : Char :=
  if 'A' ≤ c ∧ c ≤ 'Z' then Char.ofNat (c.toNat + 32) else c

/-- Python `str.lower`, applied character by character. -/
def py_lower (s : String) : String := String.mk (s.data.map py_char_lower)

/-- Python whitespace test used by `str.strip` (ASCII whitespace characters). -/
def py_isspace (c : Char) : Bool :=
  c == ' ' || c == '\t' || c == '\n' || c == '\r' || c == '\x0b' || c == '\x0c'

/-- Python `str.strip`: drop leading and trailing whitespace. -/
def py_strip (s : String) : String :=
  String.mk (((s.data.dropWhile py_isspace).reverse.dropWhile py_isspace).reverse)

/-- Python `s.startswith(pre)`. -/
def py_startswith (s pre : String) : Bool := List.isPrefixOf pre.data s.data

/-- Python truthiness test `not x` for an optional string: `None` and the empty
string are falsy. -/
def pyFalsy : Option String → Bool
  | none => true
  | some s => s == ""

/-- Python `d.get(k, dflt)` over an association list with string keys. -/
def dictGet (d : List (String × String)) (k : String) (dflt : String) : String :=
  match d.find? (fun kv => kv.fst == k) with
  | some kv => kv.snd
  | none => dflt

/-- api.py lines 26-31: the `SUPPORTED_LANGUAGES` table. -/
def SUPPORTED_LANGUAGES : List (String × String) :=
  [("en", "English"), ("hi", "Hindi"), ("ta", "Tamil"), ("gu", "Gujarati")]

/-- api.py lines 34-39: `detect_script_simple`, the script-range resolver. -/
def detect_script_simple (text : String) : String :=
  if text.data.any (fun c => decide ('ऀ' ≤ c ∧ c ≤ 'ॿ')) then "hi"
  else if text.data.any (fun c => decide ('஀' ≤ c ∧ c ≤ '௿')) then "ta"
  else if text.data.any (fun c => decide ('઀' ≤ c ∧ c ≤ '૿')) then "gu"
  else if text.data.any (fun c => decide ('a' ≤ py_char_lower c ∧ py_char_lower c ≤ 'z')) then "en"
  else "en"

/-- api.py line 43: the greeting keyword list of `is_small_talk`. -/
def small_talk_keywords : List String :=
  ["hello", "hi", "hey", "namaste", "vanakkam", "kem cho"]

/-- api.py lines 42-45: `is_small_talk` — true when the lowercased, stripped
message equals one of the keywords. -/
def is_small_talk (text : String) : Bool :=
  small_talk_keywords.any (fun p => p == py_strip (py_lower text))

/-- api.py lines 48-53: the canned greeting table of `get_small_talk_response`. -/
def small_talk_responses : List (String × String) :=
  [("hi", "नमस्ते! मैं आपकी कैसे मदद कर सकता हूँ?"),
   ("ta", "வணக்கம்! எப்படி உதவலாம்?"),
   ("gu", "નમસ્તે! હું તમારી કેવી મદદ કરું?"),
   ("en", "Hello! How can I assist you?")]

/-- api.py lines 47-54: `get_small_talk_response`; `responses.get(lang,
responses["en"])`, whose default entry is the English greeting. -/
def get_small_talk_response (lang : String) : String :=
  dictGet small_talk_responses lang "Hello! How can I assist you?"

/-- One recorded call to an external collaborator. -/
inductive CallEvent where
  | sttCall (audio lang : String)
  | genCall (prompt : String)
  | ttsCall (text lang : String)
deriving DecidableEq

/-- api.py line 59: the `lang_map` of `text_to_speech`. -/
def lang_map_tts : List (String × String) :=
  [("hi", "hi"), ("ta", "ta"), ("gu", "gu"), ("en", "en")]

/-- api.py line 61: `re.sub(r"[\*\#]", "", text)` — remove every `*` and `#`. -/
def clean_text_for_tts (text : String) : String :=
  String.mk (text.data.filter (fun c => !(c == '*' || c == '#')))

/-- api.py lines 57-68: `text_to_speech`. The gTTS synthesizer is the `synth`
parameter; `none` models the exception path of the try/except, which makes the
function return `None`. The call event records the exact text and language
handed to the synthesizer. -/
def text_to_speech (synth : String → String → Option (List Nat)) (text lang : String) :
    Option (List Nat) × List CallEvent :=
  let tts_lang := dictGet lang_map_tts lang "en"
  let clean_text := clean_text_for_tts text
  (synth clean_text tts_lang, [CallEvent.ttsCall clean_text tts_lang])

/-- api.py lines 81-86: the `lang_map` of `speech_to_text`. -/
def lang_map_stt : List (String × String) :=
  [("hi", "hi-IN"), ("ta", "ta-IN"), ("gu", "gu-IN"), ("en", "en-US")]

/-- api.py lines 71-92: `speech_to_text`. The recognizer is the `recognize`
parameter; `none` models the bare-except path that returns `None`. The
temporary wav file is invisible at this level. -/
def speech_to_text (recognize : String → String → Option String)
    (audio_bytes target_lang : String) : Option String × List CallEvent :=
  let hint := dictGet lang_map_stt target_lang "en-US"
  (recognize audio_bytes hint, [CallEvent.sttCall audio_bytes hint])

/-- api.py line 101. -/
def LOGIN_URL : String := "https://sujhaa-frontend.vercel.app/login"

/-- api.py line 102. -/
def HELPLINE : String := "1800110000"

/-- api.py lines 105-110: the `MASTER_PROBLEM_QUERIES` table (computed inside
`build_prompt` and never read afterwards). -/
def MASTER_PROBLEM_QUERIES : List (String × String) :=
  [("en", "I have a problem on the portal."),
   ("hi", "पोर्टल पर मुझे एक समस्या है"),
   ("ta", "போர்ட்டலில் எனக்கு ஒரு சிக்கல் உள்ளது"),
   ("gu", "પોર્ટલ પર મને એક સમસ્યા છે")]

/-- api.py lines 115-118: `HELP_RESPONSES["Help: Application rejected, what
next?"]` for English, with `LOGIN_URL` and `HELPLINE` folded in. -/
def HELP_EN_REJECTED : String :=
  "* **Check Reason:** **Log in** to see the rejection reason: https://sujhaa-frontend.vercel.app/login\n* **Action:** **Rectify** the issue (e.g., re-upload documents) and **resubmit**.\n* **Helpline:** Call **1800110000** or use the Dashboard support."

/-- api.py lines 120-123: the English forgot-password help entry. -/
def HELP_EN_FORGOT : String :=
  "* **Forgot Password:** Use the \x27Forgot Password\x27 link on the [**Login Page**](https://sujhaa-frontend.vercel.app/login).\n* **Beneficiary ID:** Check your registered **email inbox** (including spam).\n* **Contact:** Call **1800110000** for further assistance."

/-- api.py lines 125-128: the English stuck-status help entry. -/
def HELP_EN_STUCK : String :=
  "* **Wait:** Verification processes can take several weeks. Allow ample time.\n* **Check Account:** **Log in** to your account (https://sujhaa-frontend.vercel.app/login) to ensure no **missing document** request is pending.\n* **Manual Check:** Call **1800110000** if the delay is excessive."

/-- api.py lines 130-132: the English general-assistance help entry. -/
def HELP_EN_GENERAL : String :=
  "* **SUJHAA Dashboard:** Use the dedicated **Help & Support** section in your dashboard.\n* **Helpline:** Call the SUJHAA Help Desk at **1800110000**."

/-- api.py lines 136-142: the consolidated English `MASTER_RESPONSE` block.
Like the help entries it is a local of `build_prompt` that the function never
returns: the section commented `Check for hardcoded response first` and
`NEW MASTER QUERY CHECK` (lines 240-243) is empty in the source. -/
def MASTER_RESPONSE_en : String :=
  "Here is a quick guide to common SUJHAA issues:\n\n**1. Application Rejected:**\n"
    ++ HELP_EN_REJECTED
    ++ "\n\n**2. Forgot Login/ID:**\n" ++ HELP_EN_FORGOT
    ++ "\n\n**3. Status Stuck/Not Updating:**\n" ++ HELP_EN_STUCK
    ++ "\n\n**4. General Assistance/Other Issue:**\n" ++ HELP_EN_GENERAL
/-- api.py lines 248-395, f-string segment of the returned prompt template: the start of the template up to the first `{language_name}` interpolation. -/
def PROMPT_SEG1 : String :=
  "\nYou are **AAROH**, a responsible, careful, and intelligent AI assistant for the **SUJHAA** platform.\n\n━━━━━━━━━━━━━━━━━━━━\n🧠 CRITICAL THINKING & SAFETY RULE\n━━━━━━━━━━━━━━━━━━━━\nYou must think and respond like a **government information assistant**.\n\n✅ Answer ONLY when the question is clearly within your domain.\n❌ NEVER guess, assume, fabricate, or hallucinate information.\n\nIf the question is:\n- Outside SUJHAA\n- Outside PM-AJAY\n- Outside PM-AJAY components\n- Outside SUJHAA components\n- About officers, backend, administration, coding, APIs, or internal systems\n- Unclear or beyond available information\n\n👉 Respond politely with:\n“I’m sorry, I can help only with information related to PM-AJAY or the SUJHAA platform.”\n\nIf the question IS in domain but the information is not available:\n👉 Clearly say:\n“This information is currently not available on SUJHAA.”\n\n━━━━━━━━━━━━━━━━━━━━\n🎯 STRICT DOMAIN (DO NOT CROSS)\n━━━━━━━━━━━━━━━━━━━━\nYou are allowed to answer ONLY about:\n- **PM-AJAY scheme**\n- **PM-AJAY components (Grant-in-Aid, Skill Development, Income Generation, Infrastructure)**\n- **SUJHAA platform**\n- **SUJHAA beneficiary processes and components**\n\n━━━━━━━━━━━━━━━━━━━━\n📌 ABOUT SUJHAA (BENEFICIARY VIEW)\n━━━━━━━━━━━━━━━━━━━━\nSUJHAA is a digital platform that helps **Scheduled Caste (SC) beneficiaries**\napply for and track schemes under **PM-AJAY** easily and transparently.\n\n━━━━━━━━━━━━━━━━━━━━\n✅ ELIGIBILITY TO APPLY\n━━━━━━━━━━━━━━━━━━━━\nA beneficiary can apply if:\n- They belong to **Scheduled Caste (SC)**\n- They have a **valid Aadhaar**\n- They have a **valid email ID**\n- They possess valid documents:\n  - Caste Certificate\n  - Income Certificate\n  - Domicile / Residential Certificate\n\n━━━━━━━━━━━━━━━━━━━━\n📝 SUJHAA APPLICATION PROCESS\n━━━━━━━━━━━━━━━━━━━━\nAlways explain in this exact sequence:\n\n1️⃣ Registration  \n- Fill application form  \n- Upload Aadhaar image & photo  \n\n2️⃣ Email OTP & Digital ID  \n- OTP sent to registered email  \n- After verification:\n  - Registration confirmed\n  - Digital Beneficiary ID sent by email\n\n3️⃣ Login  \n- Aadhaar Number or Digital Beneficiary ID  \n- Password  \n\n4️⃣ Scheme Selection  \n- System shows eligible PM-AJAY schemes  \n- Beneficiary selects scheme(s)\n\n5️⃣ Upload Documents  \n- Caste Certificate  \n- Income Certificate  \n- Domicile Certificate  \n\n6️⃣ Final Submission  \n- Application ID generated  \n- Status: **Submitted – Under Verification**\n━━━━━━━━━━━━━━━━━━━━\n✅ IMPORTANT INCOME RULE (FIXED)\n━━━━━━━━━━━━━━━━━━━━\nIf user asks about **minimum income eligibility**:\n\nReply EXACTLY like this (no deviation):\n\n\"PM-AJAY does not prescribe a single national minimum income limit.\nIncome eligibility is determined by **State / UT governments** under SCSP guidelines.\nIn most states, the annual family income limit generally falls between **₹1 lakh to ₹2.5 lakh**, depending on the specific scheme.\"\n\n━━━━━━━━━━━━━━━━━━━━\n📝 APPLICATION PROCESS (WITH LINKS)\n━━━━━━━━━━━━━━━━━━━━\nWhen explaining application steps, ALWAYS include:\n\n- **Registration**: https://sujhaa-frontend.vercel.app/register\n- **Login**: https://sujhaa-frontend.vercel.app/login\n\nExample format:\n- Register on SUJHAA: https://sujhaa-frontend.vercel.app/register\n- Login after verification: https://sujhaa-frontend.vercel.app/login\n━━━━━━━━━━━━━━━━━━━━\n📊 AFTER SUBMISSION\n━━━━━━━━━━━━━━━━━━━━\n- Application goes to field officer for further verification\n- Field verification may occur if required\n- Beneficiary can track status anytime\n\n━━━━━━━━━━━━━━━━━━━━\n🆘 PERMITTED HELP TOPICS\n━━━━━━━━━━━━━━━━━━━━\nYou may help with:\n- How to apply on SUJHAA\n- Documents required\n- Login and Digital ID help\n- Application status meanings\n- PM-AJAY scheme overview (high-level)\n\n━━━━━━━━━━━━━━━━━━━━\n🚫 FORBIDDEN ACTIONS\n━━━━━━━━━━━━━━━━━━━━\n- Do NOT answer outside domain\n- Do NOT hallucinate or guess\n- Do NOT explain internal systems\n- Do NOT give legal or policy interpretation\n\n━━━━━━━━━━━━━━━━━━━━\n🗣 RESPONSE STYLE\n━━━━━━━━━━━━━━━━━━━━\n1. Reply ONLY in **"

/-- api.py lines 248-395, f-string segment of the returned prompt template: between the first `{language_name}` and the `{chat_history}` interpolation; it ends with the `Conversation History:` header. -/
def PROMPT_SEG2 : String :=
  "**\n2. Be **short, structured, and clear**\n3. Use **bullet points & bold keywords**\n4. No greeting unless user greets first\n5. Maintain calm, official, helpful tone\n\nConversation History:\n"

/-- api.py lines 248-395, f-string segment of the returned prompt template: between `{chat_history}` and the `{user_query}` interpolation. -/
def PROMPT_SEG3 : String :=
  "\n\nUser Question:\n"

/-- api.py lines 248-395, f-string segment of the returned prompt template: between `{user_query}` and the second `{language_name}` interpolation. -/
def PROMPT_SEG4 : String :=
  "\n\nNow respond carefully and truthfully in **"

/-- api.py lines 248-395, f-string segment of the returned prompt template: after the second `{language_name}` interpolation, to the end. -/
def PROMPT_SEG5 : String :=
  "**, following ALL rules above.\n"
/-- api.py lines 95-96 and 248-395: `build_prompt`. The function looks up the
display name of the target language and returns the instruction template with
the language name, the history transcript, and the user query interpolated.
The per-language `HELP_RESPONSES` / `MASTER_RESPONSE` locals it also computes
(lines 105-238) never flow into the returned value — the branch that was meant
to return them (comments at lines 240-243) is empty — so they live here as the
separate definitions above rather than inside this function. -/
def build_prompt (user_query chat_history target_lang : String) : String :=
  let language_name := dictGet SUPPORTED_LANGUAGES target_lang "English"
  PROMPT_SEG1 ++ language_name ++ PROMPT_SEG2 ++ chat_history ++ PROMPT_SEG3
    ++ user_query ++ PROMPT_SEG4 ++ language_name ++ PROMPT_SEG5

/-- One entry of `chat_history`: the dicts `{"role": ..., "content": ...}`
read by the history loop at api.py lines 436-438. -/
structure ChatTurn where
  role : String
  content : String
deriving DecidableEq

/-- api.py lines 403-408: the `ChatRequest` pydantic model. -/
structure ChatRequest where
  message : String
  target_language : String
  chat_history : List ChatTurn
  wants_audio : Bool
  is_voice : Bool
deriving DecidableEq

/-- The JSON dict returned by the `/chat` endpoint. `tts_audio = none` means
the key is absent (the voice-failure reply at api.py line 426 carries only
`text` and `language`); `tts_audio = some a` means the key is present with
value `a`, where `a = none` is JSON `null`. -/
structure ChatResponse where
  text : String
  language : String
  tts_audio : Option (Option (List Nat))
deriving DecidableEq

/-- api.py lines 437-438: one transcript line `f"{role}: {m['content']}\n"`,
with role `User` for `"user"` and `Assistant` for anything else. -/
def renderTurn (m : ChatTurn) : String :=
  (if m.role == "user" then "User" else "Assistant") ++ ": " ++ m.content ++ "\n"

/-- Python `l[-10:]`: the last ten elements (the whole list when shorter). -/
def pyLastTen (l : List ChatTurn) : List ChatTurn := l.drop (l.length - 10)

/-- api.py lines 435-438: the history transcript accumulated into
`history_text`, oldest turn first. -/
def historyText (h : List ChatTurn) : String :=
  String.join ((pyLastTen h).map renderTurn)

/-- api.py lines 420-425: the localized voice-failure messages `msgs`. -/
def voice_error_msgs : List (String × String) :=
  [("hi", "क्षमा करें, आपकी आवाज़ समझ नहीं आई।"),
   ("ta", "மன்னிக்கவும், குரலை புரிந்துகொள்ள முடியவில்லை。"),
   ("gu", "માફ કરશો, અવાજ સમજાયો નથી。"),
   ("en", "Sorry, I couldn’t understand your voice.")]

/-- api.py lines 452-457: the localized generation-failure messages `fallback`. -/
def gen_fallback : List (String × String) :=
  [("hi", "अभी जानकारी उपलब्ध नहीं है। कृपया बाद में प्रयास करें।"),
   ("ta", "தகவல் கிடைக்கவில்லை. பின்னர் முயற்சிக்கவும்。"),
   ("gu", "માહિતી ઉપલબ્ધ નથી. થોડા સમય પછી પ્રયત્ન કરો。"),
   ("en", "I cannot respond right now. Please try again later.")]

/-- api.py lines 440-458: compose the prompt and produce `ai_resp`. A query
starting with `Help:` uses `prompt_or_response` directly (no model call);
otherwise `model.generate_content` runs, its failure (`gen` returning `none`,
modeling the except branch) being replaced by the localized fallback. -/
def gen_step (gen : String → Option String) (user_query target_lang : String)
    (hist : List ChatTurn) : String × List CallEvent :=
  let history_text := historyText hist
  let prompt_or_response := build_prompt user_query history_text target_lang
  if py_startswith user_query "Help:" then
    (prompt_or_response, [])
  else
    match gen prompt_or_response with
    | some t => (t, [CallEvent.genCall prompt_or_response])
    | none =>
        (dictGet gen_fallback target_lang "I cannot respond right now. Please try again later.",
         [CallEvent.genCall prompt_or_response])

/-- api.py lines 428-466: the endpoint body after the voice-input block — the
small-talk short circuit (lines 429-432) and otherwise the generation step
followed by optional synthesis (lines 434-466). -/
def chat_rest (gen : String → Option String) (synth : String → String → Option (List Nat))
    (user_query target_lang : String) (hist : List ChatTurn) (wants_audio : Bool) :
    ChatResponse × List CallEvent :=
  if is_small_talk user_query then
    let resp := get_small_talk_response target_lang
    let t := if wants_audio then text_to_speech synth resp target_lang else (none, [])
    (⟨resp, target_lang, some t.fst⟩, t.snd)
  else
    let gr := gen_step gen user_query target_lang hist
    let t := if wants_audio then text_to_speech synth gr.fst target_lang else (none, [])
    (⟨gr.fst, target_lang, some t.fst⟩, gr.snd ++ t.snd)

/-- api.py lines 410-466: the `/chat` endpoint. `target_lang` is the lowercased
requested language (line 414). A voice request is transcribed first; a falsy
transcription result returns the localized voice-failure message immediately
(lines 417-426). The second component collects every external-collaborator
call made while serving the request. -/
def chat (stt : String → String → Option String) (gen : String → Option String)
    (synth : String → String → Option (List Nat)) (req : ChatRequest) :
    ChatResponse × List CallEvent :=
  let target_lang := py_lower req.target_language
  if req.is_voice then
    let r := speech_to_text stt req.message target_lang
    if pyFalsy r.fst then
      (⟨dictGet voice_error_msgs target_lang "Sorry, I couldn’t understand your voice.",
        target_lang, none⟩, r.snd)
    else
      let s := chat_rest gen synth (r.fst.getD "") target_lang req.chat_history req.wants_audio
      (s.fst, r.snd ++ s.snd)
  else
    chat_rest gen synth req.message target_lang req.chat_history req.wants_audio

/-- Stub generation collaborator that always answers `s`. -/
def genConst (s : String) : String → Option String := fun _ => some s

/-- Stub generation collaborator that always fails. -/
def genFail : String → Option String := fun _ => none

/-- Stub recognizer that always fails. -/
def sttNone : String → String → Option String := fun _ _ => none

/-- Stub recognizer that always transcribes to `s`. -/
def sttConst (s : String) : String → String → Option String := fun _ _ => some s

/-- Stub synthesizer that always fails. -/
def synthNone : String → String → Option (List Nat) := fun _ _ => none

/-- Stub synthesizer that always produces the byte list `b`. -/
def synthConst (b : List Nat) : String → String → Option (List Nat) := fun _ _ => some b

/-- Character order is the order of the underlying code points. -/
theorem char_le_iff (a b : Char) : a ≤ b ↔ a.toNat ≤ b.toNat := Iff.rfl

/-- Code point of `Char.ofNat` at a valid code point. -/
theorem char_toNat_ofNat (n : Nat) (h : n.isValidChar) : (Char.ofNat n).toNat = n := by
  simp [Char.ofNat, h]
  rfl

/-- Lowercasing an uppercase ASCII letter lands in the lowercase range. -/
theorem py_char_lower_of_upper {c : Char} (h1 : 'A' ≤ c) (h2 : c ≤ 'Z') :
    'a' ≤ py_char_lower c ∧ py_char_lower c ≤ 'z' := by
  have hn1 : (65 : Nat) ≤ c.toNat := h1
  have hn2 : c.toNat ≤ (90 : Nat) := h2
  have hv : (c.toNat + 32).isValidChar := Or.inl (by omega)
  have ht : (Char.ofNat (c.toNat + 32)).toNat = c.toNat + 32 := char_toNat_ofNat _ hv
  unfold py_char_lower
  rw [if_pos ⟨h1, h2⟩]
  constructor
  · show (97 : Nat) ≤ (Char.ofNat (c.toNat + 32)).toNat
    rw [ht]; omega
  · show (Char.ofNat (c.toNat + 32)).toNat ≤ (122 : Nat)
    rw [ht]; omega

/-- Lowercasing fixes a lowercase ASCII letter. -/
theorem py_char_lower_of_lower {c : Char} (h1 : 'a' ≤ c) (_h2 : c ≤ 'z') :
    py_char_lower c = c := by
  have hn1 : (97 : Nat) ≤ c.toNat := h1
  unfold py_char_lower
  rw [if_neg]
  rintro ⟨-, hZ⟩
  have hn2 : c.toNat ≤ (90 : Nat) := hZ
  omega

/-- C10: `is_small_talk` accepts exactly the inputs whose lowercased,
whitespace-stripped text equals one of the six greeting keywords; a keyword
occurring as a proper substring (such as in `hello there`) does not trigger it,
and no thanks or farewell word is recognized. -/
theorem c10_small_talk_exact_keyword_match (text : String) :
    (is_small_talk text = true ↔ py_strip (py_lower text) ∈ small_talk_keywords)
    ∧ is_small_talk "hello there" = false
    ∧ is_small_talk "thanks" = false
    ∧ is_small_talk "thank you" = false
    ∧ is_small_talk "bye" = false
    ∧ is_small_talk "goodbye" = false
    ∧ is_small_talk " Hello " = true := by
  refine ⟨?_, by decide, by decide, by decide, by decide, by decide, by decide⟩
  unfold is_small_talk
  rw [List.any_eq_true]
  constructor
  · rintro ⟨p, hp, he⟩
    rw [beq_iff_eq] at he
    exact he ▸ hp
  · intro hm
    exact ⟨_, hm, beq_self_eq_true _⟩

/-- C8: on non-empty text lying wholly inside a single one of the three Indic
script blocks, `detect_script_simple` returns the language of that block, and
on text made of ASCII Latin letters only it returns `en`. -/
theorem c8_script_block_detection (text : String) (hne : text.data ≠ []) :
    ((∀ c ∈ text.data, 'ऀ' ≤ c ∧ c ≤ 'ॿ') → detect_script_simple text = "hi")
    ∧ ((∀ c ∈ text.data, '஀' ≤ c ∧ c ≤ '௿') → detect_script_simple text = "ta")
    ∧ ((∀ c ∈ text.data, '઀' ≤ c ∧ c ≤ '૿') → detect_script_simple text = "gu")
    ∧ ((∀ c ∈ text.data, ('A' ≤ c ∧ c ≤ 'Z') ∨ ('a' ≤ c ∧ c ≤ 'z')) →
        detect_script_simple text = "en") := by
  obtain ⟨c0, hc0⟩ := List.exists_mem_of_ne_nil text.data hne
  refine ⟨?_, ?_, ?_, ?_⟩
  · intro hall
    have h1 : text.data.any (fun c => decide ('ऀ' ≤ c ∧ c ≤ 'ॿ')) = true :=
      List.any_eq_true.2 ⟨c0, hc0, by simpa using hall c0 hc0⟩
    simp only [detect_script_simple, h1]
    rfl
  · intro hall
    have h1 : text.data.any (fun c => decide ('ऀ' ≤ c ∧ c ≤ 'ॿ')) = false := by
      rw [List.any_eq_false]
      intro c hc
      simp only [decide_eq_true_eq, not_and]
      intro _ hup
      have ha : ('஀').toNat ≤ c.toNat := (hall c hc).1
      have hb : c.toNat ≤ ('ॿ').toNat := hup
      exact absurd (le_trans ha hb) (by decide)
    have h2 : text.data.any (fun c => decide ('஀' ≤ c ∧ c ≤ '௿')) = true :=
      List.any_eq_true.2 ⟨c0, hc0, by simpa using hall c0 hc0⟩
    simp only [detect_script_simple, h1, h2]
    rfl
  · intro hall
    have h1 : text.data.any (fun c => decide ('ऀ' ≤ c ∧ c ≤ 'ॿ')) = false := by
      rw [List.any_eq_false]
      intro c hc
      simp only [decide_eq_true_eq, not_and]
      intro _ hup
      have ha : ('઀').toNat ≤ c.toNat := (hall c hc).1
      have hb : c.toNat ≤ ('ॿ').toNat := hup
      exact absurd (le_trans ha hb) (by decide)
    have h2 : text.data.any (fun c => decide ('஀' ≤ c ∧ c ≤ '௿')) = false := by
      rw [List.any_eq_false]
      intro c hc
      simp only [decide_eq_true_eq, not_and]
      intro hlo _
      have ha : ('஀').toNat ≤ c.toNat := hlo
      have hb : c.toNat ≤ ('૿').toNat := (hall c hc).2
      exact absurd (le_trans ha hb) (by decide)
    have h3 : text.data.any (fun c => decide ('઀' ≤ c ∧ c ≤ '૿')) = true :=
      List.any_eq_true.2 ⟨c0, hc0, by simpa using hall c0 hc0⟩
    simp only [detect_script_simple, h1, h2, h3]
    rfl
  · intro hall
    have hlat : ∀ c ∈ text.data, c.toNat ≤ (122 : Nat) := by
      intro c hc
      rcases hall c hc with ⟨-, h2⟩ | ⟨-, h2⟩
      · have : c.toNat ≤ (90 : Nat) := h2
        omega
      · exact h2
    have h1 : text.data.any (fun c => decide ('ऀ' ≤ c ∧ c ≤ 'ॿ')) = false := by
      rw [List.any_eq_false]
      intro c hc
      simp only [decide_eq_true_eq, not_and]
      intro hlo _
      have ha : ('ऀ').toNat ≤ c.toNat := hlo
      exact absurd (le_trans ha (hlat c hc)) (by decide)
    have h2 : text.data.any (fun c => decide ('஀' ≤ c ∧ c ≤ '௿')) = false := by
      rw [List.any_eq_false]
      intro c hc
      simp only [decide_eq_true_eq, not_and]
      intro hlo _
      have ha : ('஀').toNat ≤ c.toNat := hlo
      exact absurd (le_trans ha (hlat c hc)) (by decide)
    have h3 : text.data.any (fun c => decide ('઀' ≤ c ∧ c ≤ '૿')) = false := by
      rw [List.any_eq_false]
      intro c hc
      simp only [decide_eq_true_eq, not_and]
      intro hlo _
      have ha : ('઀').toNat ≤ c.toNat := hlo
      exact absurd (le_trans ha (hlat c hc)) (by decide)
    have h4 : text.data.any (fun c => decide ('a' ≤ py_char_lower c ∧ py_char_lower c ≤ 'z')) = true := by
      refine List.any_eq_true.2 ⟨c0, hc0, ?_⟩
      rcases hall c0 hc0 with ⟨ha, hb⟩ | ⟨ha, hb⟩
      · simpa using py_char_lower_of_upper ha hb
      · have heq := py_char_lower_of_lower ha hb
        rw [decide_eq_true_eq, heq]
        exact ⟨ha, hb⟩
    simp only [detect_script_simple, h1, h2, h3, h4]
    rfl

/-- Witness for C8: concrete Devanagari, Tamil, Gujarati and Latin inputs. -/
theorem c8_script_block_detection_witness :
    ("नमस्ते" : String).data ≠ []
    ∧ detect_script_simple "नमस्ते" = "hi"
    ∧ detect_script_simple "வணக்கம்" = "ta"
    ∧ detect_script_simple "નમસ્તે" = "gu"
    ∧ detect_script_simple "Hello" = "en" :=
  ⟨by decide,
   (c8_script_block_detection "नमस्ते" (by decide)).1 (by decide),
   (c8_script_block_detection "வணக்கம்" (by decide)).2.1 (by decide),
   (c8_script_block_detection "નમસ્તે" (by decide)).2.2.1 (by decide),
   (c8_script_block_detection "Hello" (by decide)).2.2.2 (by decide)⟩

/-- String concatenation is associative (componentwise on the character data). -/
theorem str_append_assoc (a b c : String) : a ++ b ++ c = a ++ (b ++ c) := by
  obtain ⟨la⟩ := a
  obtain ⟨lb⟩ := b
  obtain ⟨lc⟩ := c
  show String.mk (la ++ lb ++ lc) = String.mk (la ++ (lb ++ lc))
  rw [List.append_assoc]

/-- Every branch of the endpoint body copies `target_lang` into the response. -/
theorem chat_rest_language (gen : String → Option String)
    (synth : String → String → Option (List Nat)) (q lang : String)
    (hist : List ChatTurn) (wa : Bool) :
    (chat_rest gen synth q lang hist wa).fst.language = lang := by
  unfold chat_rest
  split <;> rfl

/-- With audio requested, the endpoint body synthesizes exactly the cleaned
final text, turns synthesis failure into a `null` audio field, and produces
the same text as the run without audio. -/
theorem chat_rest_tts (gen : String → Option String)
    (synth : String → String → Option (List Nat)) (q lang : String)
    (hist : List ChatTurn) :
    (∃ pre, (chat_rest gen synth q lang hist true).snd
        = pre ++ [CallEvent.ttsCall
            (clean_text_for_tts (chat_rest gen synth q lang hist true).fst.text)
            (dictGet lang_map_tts lang "en")])
    ∧ (synth (clean_text_for_tts (chat_rest gen synth q lang hist true).fst.text)
          (dictGet lang_map_tts lang "en") = none →
        (chat_rest gen synth q lang hist true).fst.tts_audio = some none)
    ∧ (chat_rest gen synth q lang hist true).fst.text
        = (chat_rest gen synth q lang hist false).fst.text := by
  have haud : (chat_rest gen synth q lang hist true).fst.tts_audio
      = some (synth (clean_text_for_tts (chat_rest gen synth q lang hist true).fst.text)
          (dictGet lang_map_tts lang "en")) := by
    cases hsm : is_small_talk q <;> simp [chat_rest, hsm, text_to_speech]
  have hsnd : (chat_rest gen synth q lang hist true).snd
      = (if is_small_talk q then [] else (gen_step gen q lang hist).snd)
        ++ [CallEvent.ttsCall
            (clean_text_for_tts (chat_rest gen synth q lang hist true).fst.text)
            (dictGet lang_map_tts lang "en")] := by
    cases hsm : is_small_talk q <;> simp [chat_rest, hsm, text_to_speech]
  refine ⟨⟨_, hsnd⟩, ?_, ?_⟩
  · intro h
    rw [haud, h]
  · cases hsm : is_small_talk q <;> simp [chat_rest, hsm]

/-- C1 counterexample: the message `hi` with a non-empty history is still
answered with the canned greeting and without any generation call, against the
claim that a non-empty history makes it Domain-General. -/
theorem c1_greeting_with_history_counterexample :
    (chat sttNone (genConst "GEN") synthNone
        ⟨"hi", "en", [ChatTurn.mk "user" "what is PM-AJAY?"], false, false⟩).fst.text
      = "Hello! How can I assist you?"
    ∧ (chat sttNone (genConst "GEN") synthNone
        ⟨"hi", "en", [ChatTurn.mk "user" "what is PM-AJAY?"], false, false⟩).snd = [] :=
  ⟨rfl, rfl⟩

/-- C1 (amended): a bare greeting keyword is answered with the canned greeting
for the resolved language and never reaches the generation collaborator,
regardless of the chat history — `is_small_talk` does not look at it. -/
theorem c1_greeting_ignores_history (stt : String → String → Option String)
    (gen : String → Option String) (synth : String → String → Option (List Nat))
    (msg lang : String) (hist : List ChatTurn) (wa : Bool)
    (h : is_small_talk msg = true) :
    (chat stt gen synth ⟨msg, lang, hist, wa, false⟩).fst.text
      = get_small_talk_response (py_lower lang)
    ∧ ∀ p, CallEvent.genCall p ∉ (chat stt gen synth ⟨msg, lang, hist, wa, false⟩).snd := by
  constructor
  · simp [chat, chat_rest, h]
  · intro p
    cases wa <;> simp [chat, chat_rest, h, text_to_speech]

/-- Witness for C1: the greeting `hi` next to one prior turn. -/
theorem c1_greeting_ignores_history_witness :
    is_small_talk "hi" = true
    ∧ (chat sttNone (genConst "GEN") synthNone
        ⟨"hi", "en", [ChatTurn.mk "user" "earlier question"], true, false⟩).fst.text
      = get_small_talk_response (py_lower "en") :=
  ⟨by decide,
   (c1_greeting_ignores_history sttNone (genConst "GEN") synthNone "hi" "en"
     [ChatTurn.mk "user" "earlier question"] true (by decide)).1⟩

/-- C2 counterexample: `thank you` with empty history and Hindi target is NOT
small talk — the endpoint calls the generation collaborator and returns its
text, not a canned Hindi thanks string (no thanks table exists in the code). -/
theorem c2_thank_you_counterexample :
    (chat sttNone (genConst "GEN") synthNone ⟨"thank you", "hi", [], false, false⟩).snd
      = [CallEvent.genCall (build_prompt "thank you" "" "hi")]
    ∧ (chat sttNone (genConst "GEN") synthNone ⟨"thank you", "hi", [], false, false⟩).fst.text
      = "GEN"
    ∧ is_small_talk "thank you" = false :=
  ⟨rfl, rfl, by decide⟩

/-- C2 (amended): `thank you` is not recognized as small talk; the endpoint
invokes the generation collaborator on the composed prompt and returns the
generated text. -/
theorem c2_thank_you_goes_to_generator (stt : String → String → Option String)
    (gen : String → Option String) (synth : String → String → Option (List Nat))
    (lang t : String)
    (hgen : gen (build_prompt "thank you" (historyText []) (py_lower lang)) = some t) :
    (chat stt gen synth ⟨"thank you", lang, [], false, false⟩).fst.text = t
    ∧ (chat stt gen synth ⟨"thank you", lang, [], false, false⟩).snd
      = [CallEvent.genCall (build_prompt "thank you" (historyText []) (py_lower lang))] := by
  have hs : is_small_talk "thank you" = false := by decide
  have hh : py_startswith "thank you" "Help:" = false := by decide
  constructor <;> simp [chat, chat_rest, gen_step, hs, hh, hgen]

/-- Witness for C2 (amended) at Hindi target with a stub generator. -/
theorem c2_thank_you_goes_to_generator_witness :
    genConst "GEN" (build_prompt "thank you" (historyText []) (py_lower "hi")) = some "GEN"
    ∧ (chat sttNone (genConst "GEN") synthNone ⟨"thank you", "hi", [], false, false⟩).fst.text
      = "GEN" :=
  ⟨rfl, (c2_thank_you_goes_to_generator sttNone (genConst "GEN") synthNone "hi" "GEN" rfl).1⟩

/-- C3: the request `I have a problem on the portal` (English, empty history)
is routed to the generation collaborator and answers with generated text; the
`MASTER_RESPONSE` help block that the source builds for exactly this master
query is dead — the prompt returned by `build_prompt` is not it, so the canned
help text can never be the response. -/
theorem c3_problem_on_portal_reaches_generator :
    (chat sttNone (genConst "GEN") synthNone
        ⟨"I have a problem on the portal", "en", [], false, false⟩).fst.text = "GEN"
    ∧ (chat sttNone (genConst "GEN") synthNone
        ⟨"I have a problem on the portal", "en", [], false, false⟩).snd
      = [CallEvent.genCall (build_prompt "I have a problem on the portal" "" "en")]
    ∧ build_prompt "I have a problem on the portal" "" "en" ≠ MASTER_RESPONSE_en
    ∧ dictGet MASTER_PROBLEM_QUERIES "en" "" = "I have a problem on the portal." :=
  ⟨rfl, rfl, by decide, rfl⟩

/-- C4 counterexample: target language `FR` is unsupported, yet the response
carries `fr` — the language field is not coerced into the supported set. -/
theorem c4_unsupported_language_counterexample :
    (chat sttNone (genConst "GEN") synthNone ⟨"hello", "FR", [], false, false⟩).fst.language
      = "fr"
    ∧ "fr" ∉ SUPPORTED_LANGUAGES.map Prod.fst :=
  ⟨rfl, by decide⟩

/-- C4 (amended): the response language field is always the lowercased
requested `target_language`, verbatim — table lookups fall back to English
entries for unknown codes, but the code itself is echoed unresolved. -/
theorem c4_response_language_verbatim (stt : String → String → Option String)
    (gen : String → Option String) (synth : String → String → Option (List Nat))
    (req : ChatRequest) :
    (chat stt gen synth req).fst.language = py_lower req.target_language := by
  cases hv : req.is_voice
  · simp only [chat, hv, Bool.false_eq_true, if_false]
    exact chat_rest_language gen synth _ _ _ _
  · simp only [chat, hv, if_true]
    split
    · rfl
    · exact chat_rest_language gen synth _ _ _ _

/-- C5: when the generation collaborator fails on a non-small-talk,
non-`Help:` text request, the endpoint still answers, with the localized
static fallback text (English entry for unsupported languages) and a `null`
audio field when no audio was requested. -/
theorem c5_generation_failure_fallback (stt : String → String → Option String)
    (gen : String → Option String) (synth : String → String → Option (List Nat))
    (req : ChatRequest)
    (hv : req.is_voice = false)
    (hsm : is_small_talk req.message = false)
    (hh : py_startswith req.message "Help:" = false)
    (hfail : gen (build_prompt req.message (historyText req.chat_history)
        (py_lower req.target_language)) = none)
    (ha : req.wants_audio = false) :
    (chat stt gen synth req).fst
      = ⟨dictGet gen_fallback (py_lower req.target_language)
            "I cannot respond right now. Please try again later.",
         py_lower req.target_language, some none⟩ := by
  simp [chat, hv, chat_rest, hsm, gen_step, hh, hfail, ha]

/-- Witness for C5: a domain question with an unsupported language code and a
failing generator yields the English fallback. -/
theorem c5_generation_failure_fallback_witness :
    is_small_talk "what is PM-AJAY" = false
    ∧ (chat sttNone genFail synthNone ⟨"what is PM-AJAY", "fr", [], false, false⟩).fst
      = ⟨dictGet gen_fallback (py_lower "fr")
            "I cannot respond right now. Please try again later.",
         py_lower "fr", some none⟩ :=
  ⟨by decide,
   c5_generation_failure_fallback sttNone genFail synthNone
     ⟨"what is PM-AJAY", "fr", [], false, false⟩ rfl (by decide) (by decide) rfl rfl⟩

/-- C6: a voice request whose transcription comes back falsy is answered at
once with the localized voice-failure message (English default); the call
trace holds only the recognition call — no classification result, no prompt,
no generation and no synthesis can be observed. -/
theorem c6_transcription_failure_short_circuit (stt : String → String → Option String)
    (gen : String → Option String) (synth : String → String → Option (List Nat))
    (req : ChatRequest)
    (hv : req.is_voice = true)
    (hfail : pyFalsy (stt req.message
        (dictGet lang_map_stt (py_lower req.target_language) "en-US")) = true) :
    (chat stt gen synth req).fst
      = ⟨dictGet voice_error_msgs (py_lower req.target_language)
            "Sorry, I couldn’t understand your voice.",
         py_lower req.target_language, none⟩
    ∧ (chat stt gen synth req).snd
      = [CallEvent.sttCall req.message
          (dictGet lang_map_stt (py_lower req.target_language) "en-US")] := by
  constructor <;> simp [chat, hv, speech_to_text, hfail]

/-- Witness for C6: Tamil voice request, failing recognizer, audio requested —
yet the trace holds only the recognition attempt. -/
theorem c6_transcription_failure_short_circuit_witness :
    pyFalsy (sttNone "AUDIOBYTES" (dictGet lang_map_stt (py_lower "ta") "en-US")) = true
    ∧ (chat sttNone (genConst "GEN") synthNone ⟨"AUDIOBYTES", "ta", [], true, true⟩).fst
      = ⟨dictGet voice_error_msgs (py_lower "ta")
            "Sorry, I couldn’t understand your voice.",
         py_lower "ta", none⟩ :=
  ⟨rfl,
   (c6_transcription_failure_short_circuit sttNone (genConst "GEN") synthNone
     ⟨"AUDIOBYTES", "ta", [], true, true⟩ rfl rfl).1⟩

/-- C7: the transcript said to the model is the rendered last ten turns — its
rendered list is exactly the length-`min n 10` suffix of the history in its
original order, fifteen turns truncate to the last ten, and the transcript
text is embedded verbatim inside the composed prompt. -/
theorem c7_history_truncated_to_last_ten (q lang : String) (hist : List ChatTurn) :
    historyText hist = String.join ((hist.drop (hist.length - 10)).map renderTurn)
    ∧ (pyLastTen hist).length = min hist.length 10
    ∧ hist.take (hist.length - 10) ++ pyLastTen hist = hist
    ∧ (hist.length = 15 → pyLastTen hist = hist.drop 5)
    ∧ ∃ pre post, build_prompt q (historyText hist) lang
        = pre ++ historyText hist ++ post := by
  refine ⟨rfl, ?_, ?_, ?_, ?_⟩
  · simp [pyLastTen]
    omega
  · exact List.take_append_drop _ _
  · intro h15
    simp [pyLastTen, h15]
  · refine ⟨PROMPT_SEG1 ++ dictGet SUPPORTED_LANGUAGES lang "English" ++ PROMPT_SEG2,
      PROMPT_SEG3 ++ q ++ PROMPT_SEG4
        ++ dictGet SUPPORTED_LANGUAGES lang "English" ++ PROMPT_SEG5, ?_⟩
    simp only [build_prompt, str_append_assoc]

/-- Witness for C7: a concrete fifteen-turn history keeps exactly the last ten. -/
theorem c7_history_truncated_to_last_ten_witness :
    (List.replicate 15 (ChatTurn.mk "user" "m")).length = 15
    ∧ pyLastTen (List.replicate 15 (ChatTurn.mk "user" "m"))
      = (List.replicate 15 (ChatTurn.mk "user" "m")).drop 5 :=
  ⟨by decide,
   (c7_history_truncated_to_last_ten "q" "en"
     (List.replicate 15 (ChatTurn.mk "user" "m"))).2.2.2.1 (by decide)⟩

/-- C9: with audio requested on a text request, the synthesizer is handed the
final response text stripped of `*` and `#`; if synthesis fails the response
still returns, with `null` audio and the same text and language as the run
without audio. -/
theorem c9_tts_clean_text_and_failure_tolerance (stt : String → String → Option String)
    (gen : String → Option String) (synth : String → String → Option (List Nat))
    (req : ChatRequest)
    (hv : req.is_voice = false) (ha : req.wants_audio = true) :
    (∃ pre, (chat stt gen synth req).snd
        = pre ++ [CallEvent.ttsCall
            (clean_text_for_tts (chat stt gen synth req).fst.text)
            (dictGet lang_map_tts (py_lower req.target_language) "en")])
    ∧ (synth (clean_text_for_tts (chat stt gen synth req).fst.text)
          (dictGet lang_map_tts (py_lower req.target_language) "en") = none →
        (chat stt gen synth req).fst.tts_audio = some none)
    ∧ (chat stt gen synth req).fst.text
        = (chat stt gen synth
            ⟨req.message, req.target_language, req.chat_history, false, false⟩).fst.text
    ∧ (chat stt gen synth req).fst.language
        = (chat stt gen synth
            ⟨req.message, req.target_language, req.chat_history, false, false⟩).fst.language := by
  have hc : chat stt gen synth req
      = chat_rest gen synth req.message (py_lower req.target_language) req.chat_history true := by
    simp [chat, hv, ha]
  have hc0 : chat stt gen synth ⟨req.message, req.target_language, req.chat_history, false, false⟩
      = chat_rest gen synth req.message (py_lower req.target_language) req.chat_history false := by
    simp [chat]
  rw [hc, hc0]
  obtain ⟨h1, h2, h3⟩ := chat_rest_tts gen synth req.message (py_lower req.target_language)
    req.chat_history
  exact ⟨h1, h2, h3,
    (chat_rest_language gen synth _ _ _ _).trans (chat_rest_language gen synth _ _ _ _).symm⟩

/-- Witness for C9: a greeting with audio requested and a failing synthesizer
still answers with text and a `null` audio field. -/
theorem c9_tts_clean_text_and_failure_tolerance_witness :
    (ChatRequest.mk "hello" "EN" [] true false).wants_audio = true
    ∧ (chat sttNone (genConst "GEN") synthNone
        ⟨"hello", "EN", [], true, false⟩).fst.tts_audio = some none :=
  ⟨rfl,
   (c9_tts_clean_text_and_failure_tolerance sttNone (genConst "GEN") synthNone
     ⟨"hello", "EN", [], true, false⟩ rfl rfl).2.1 rfl⟩
